import Mathlib

/-!
Shallow embedding of the bluebirddm/crawler task-orchestration and
hot-score subsystems, translated from:
  src/src/models/task_history.py      (TaskStatus, TaskHistory)
  src/src/tasks/crawler_tasks.py      (CallbackTask lifecycle callbacks, crawl_url)
  src/src/api/routers/tasks.py        (cancel_task, delete_batch_task_history)
  src/src/services/hot_score_service.py (HotScoreService)
  src/src/utils/cache.py              (RedisCache, invalidate_article_cache)
Timestamps are modelled as numbers (seconds); JSON payloads as a small
opaque value type; the SQL row for one task_id as an Option record.
-/

namespace Crawler

/-- Python substring test `pat in s` (used as a name dispatch, e.g.
`'crawl_url' in self.name`), on the character lists of the strings. -/
def strContains (s pat : String) : Bool := s.data.tails.any (fun t => pat.data.isPrefixOf t)

/-- String prefix test on character lists. -/
def strIsPrefixOf (p s : String) : Bool := p.data.isPrefixOf s.data

/-- TaskStatus enum from src/src/models/task_history.py. -/
inductive TaskStatus where
  | pending
  | running
  | success
  | failure
  | retry
  | revoked
deriving DecidableEq, Repr

/-- Terminal statuses (spec section 4.1: SUCCESS, FAILURE, REVOKED). -/
def TaskStatus.isTerminal : TaskStatus → Bool
  | .success => true
  | .failure => true
  | .revoked => true
  | _ => false

/-- Opaque JSON-ish payload values carried in args/kwargs/result fields. -/
inductive Jv where
  | str (v : String)
  | list (vs : List String)
  | num (v : Int)
deriving DecidableEq, Repr

/-- The TaskHistory row (src/src/models/task_history.py), restricted to the
columns the lifecycle callbacks read or write.  Column defaults follow the
model: status defaults to PENDING, retry_count to 0, the rest to NULL. -/
structure TaskHistory where
  task_id : String
  task_name : String
  task_type : String
  url : Option Jv := none
  urls : Option Jv := none
  args : List Jv := []
  kwargs : List (String × Jv) := []
  status : TaskStatus := .pending
  result : Option Jv := none
  error_message : Option String := none
  traceback : Option String := none
  retry_count : Nat := 0
  started_at : Option Nat := none
  completed_at : Option Nat := none
  worker_name : Option String := none
  queue_name : Option String := none
deriving DecidableEq, Repr

/-- Ambient data of the Celery task object used by the callbacks:
self.name, self.request.hostname, self.request.queue. -/
structure CallbackCtx where
  name : String
  worker : Option String
  queue : Option String
deriving DecidableEq, Repr

/-- CallbackTask._get_task_type: substring dispatch on the task name. -/
def get_task_type (name : String) : String :=
  if strContains name "crawl_url" then "crawl_url"
  else if strContains name "crawl_batch" then "crawl_batch"
  else if strContains name "scheduled_crawl" then "scheduled_crawl"
  else if strContains name "cleanup" then "cleanup"
  else if strContains name "reprocess" then "reprocess"
  else "unknown"

/-- The `if 'crawl_url' in self.name and args: task_history.url = args[0]`
block that each of before_start / on_success / on_failure repeats inline. -/
def set_url_fields (name : String) (args : List Jv) (h : TaskHistory) : TaskHistory :=
  if strContains name "crawl_url" && !args.isEmpty then { h with url := args.head? }
  else if strContains name "crawl_batch" && !args.isEmpty then { h with urls := args.head? }
  else h

/-- CallbackTask.before_start (src/src/tasks/crawler_tasks.py lines 18-56),
acting on the row stored for this task_id.  If no row exists a fresh RUNNING
row is inserted; otherwise the row is set to RUNNING, started_at is reset and
retry_count is incremented. -/
def before_start (ctx : CallbackCtx) (task_id : String) (args : List Jv)
    (kwargs : List (String × Jv)) (start_time : Nat) :
    Option TaskHistory → Option TaskHistory
  | none =>
      some (set_url_fields ctx.name args
        { task_id := task_id
          task_name := ctx.name
          task_type := get_task_type ctx.name
          args := args
          kwargs := kwargs
          status := .running
          started_at := some start_time
          worker_name := ctx.worker
          queue_name := ctx.queue })
  | some h =>
      some { h with
        status := .running
        started_at := some start_time
        retry_count := h.retry_count + 1 }

/-- CallbackTask.on_success (lines 58-93): set SUCCESS, completed_at and
result on the existing row, or synthesize a row when none exists. -/
def on_success (ctx : CallbackCtx) (retval : Jv) (task_id : String) (args : List Jv)
    (kwargs : List (String × Jv)) (now : Nat) :
    Option TaskHistory → Option TaskHistory
  | some h =>
      some { h with status := .success, completed_at := some now, result := some retval }
  | none =>
      some (set_url_fields ctx.name args
        { task_id := task_id
          task_name := ctx.name
          task_type := get_task_type ctx.name
          args := args
          kwargs := kwargs
          status := .success
          result := some retval
          completed_at := some now
          worker_name := ctx.worker })

/-- CallbackTask.on_failure (lines 95-132): set FAILURE, completed_at, the
error message and traceback on the existing row, or synthesize a row. -/
def on_failure (ctx : CallbackCtx) (exc : String) (einfo : Option String)
    (task_id : String) (args : List Jv) (kwargs : List (String × Jv)) (now : Nat) :
    Option TaskHistory → Option TaskHistory
  | some h =>
      some { h with
        status := .failure
        completed_at := some now
        error_message := some exc
        traceback := einfo }
  | none =>
      some (set_url_fields ctx.name args
        { task_id := task_id
          task_name := ctx.name
          task_type := get_task_type ctx.name
          args := args
          kwargs := kwargs
          status := .failure
          error_message := some exc
          traceback := einfo
          completed_at := some now
          worker_name := ctx.worker })

/-- CallbackTask.on_retry (lines 134-149): set RETRY, record the error and
bump retry_count; a missing row is left missing (no synthesis here). -/
def on_retry (ctx : CallbackCtx) (exc : String) (task_id : String) :
    Option TaskHistory → Option TaskHistory
  | some h =>
      some { h with
        status := .retry
        error_message := some exc
        retry_count := h.retry_count + 1 }
  | none => none

/-- cancel_task (src/src/api/routers/tasks.py lines 165-183): after revoking
at the broker, set REVOKED and completed_at on the stored row when one
exists; when no row exists nothing is written. -/
def cancel_task (now : Nat) : Option TaskHistory → Option TaskHistory
  | some h => some { h with status := .revoked, completed_at := some now }
  | none => none

/-- Outcome of the scrapy subprocess inside crawl_url: normal completion
with a return code, subprocess.TimeoutExpired, or any other raised
exception. -/
inductive SubprocessResult where
  | completed (returncode : Int) (stderr : String)
  | timedOut
  | raised (msg : String)
deriving DecidableEq, Repr

/-- What one execution of the crawl_url body asks the task runner to do:
return a success payload, reschedule itself via self.retry(countdown), or
fail at once without a retry request (an action the source never takes). -/
inductive CrawlAction where
  | success (url : String) (timestamp : Nat)
  | retryAfter (countdown : Nat)
  | failNoRetry (msg : String)
deriving DecidableEq, Repr

/-- crawl_url body (src/src/tasks/crawler_tasks.py lines 167-199): a timeout
is retried with countdown 60; a non-zero exit raises and, like every other
exception, is retried with countdown 30; only return code 0 succeeds. -/
def crawl_url (url : String) (sub : SubprocessResult) (now : Nat) : CrawlAction :=
  match sub with
  | .timedOut => .retryAfter 60
  | .raised _ => .retryAfter 30
  | .completed rc _ => if rc != 0 then .retryAfter 30 else .success url now

/-! Hot-score engine (src/src/services/hot_score_service.py).  Python floats
and math.pow are modelled over the reals; timestamps are real numbers of
seconds.  All comparisons on reals are classical, so this section is
noncomputable. -/

/-- The Article columns that calculate_hot_score reads
(src/src/models/article.py).  Python integer counters are modelled as
integers; level may be NULL (column default 0); sentiment may be NULL. -/
structure Article where
  view_count : Int
  like_count : Int
  share_count : Int
  level : Option Int
  sentiment : Option ℝ
  category : Option String
  crawl_time : ℝ

namespace HotScoreService

noncomputable section

def VIEW_WEIGHT : ℝ := 1.0

def LIKE_WEIGHT : ℝ := 3.0

def SHARE_WEIGHT : ℝ := 5.0

def HALF_LIFE_HOURS : ℝ := 72

/-- The LEVEL_WEIGHTS dict: keys 1..5. -/
def LEVEL_WEIGHTS : Int → Option ℝ
  | 1 => some 0.6
  | 2 => some 0.8
  | 3 => some 1.0
  | 4 => some 1.3
  | 5 => some 1.6
  | _ => none

/-- Python `article.level or 1`: None and 0 are falsy and give 1. -/
def levelOrOne : Option Int → Int
  | none => 1
  | some l => if l = 0 then 1 else l

/-- `cls.LEVEL_WEIGHTS.get(article.level or 1, 0.8)`. -/
def level_weight (a : Article) : ℝ := (LEVEL_WEIGHTS (levelOrOne a.level)).getD 0.8

/-- The sentiment block: `if article.sentiment:` is Python truthiness, so a
NULL or exactly-zero sentiment leaves the boost at 1.0; above 0.5 boosts to
1.2, below -0.5 penalizes to 0.9. -/
def sentiment_boost (a : Article) : ℝ :=
  match a.sentiment with
  | none => 1.0
  | some s =>
      if s ≠ 0 then (if s > 0.5 then 1.2 else if s < -0.5 then 0.9 else 1.0) else 1.0

/-- The category_boosts dict literal inside calculate_hot_score. -/
def category_boosts (c : String) : Option ℝ :=
  if c = "技术" then some 1.1
  else if c = "热点" then some 1.2
  else if c = "深度" then some 1.15
  else none

/-- The multiplicative effect of the category-boost block, as a single
factor (1 when the category is absent or unboosted); used to restate
calculate_hot_score as one product in the proofs below. -/
def categoryFactor : Option String → ℝ
  | none => 1
  | some c => (category_boosts c).getD 1

/-- Python round(x, 2).  Modelled as floor(x*100 + 1/2)/100; Python rounds
half-cent ties to even instead, a difference confined to exact ties that
none of the inputs below hits and that preserves monotonicity either way. -/
def roundTo2 (x : ℝ) : ℝ := (⌊x * 100 + 1 / 2⌋ : ℤ) / 100

/-- HotScoreService.calculate_hot_score (lines 34-99): interaction score
floored at the 10.0 baseline, half-life decay with a 1.2 freshness
multiplier inside 24 hours, quality = level weight times sentiment boost,
optional category boost, rounded to 2 decimals. -/
def calculate_hot_score (a : Article) (current_time : ℝ) : ℝ :=
  let interaction_score : ℝ :=
    a.view_count * VIEW_WEIGHT + a.like_count * LIKE_WEIGHT + a.share_count * SHARE_WEIGHT
  let base_score : ℝ := 10.0
  let interaction_score := max interaction_score base_score
  let hours_passed := (current_time - a.crawl_time) / 3600
  let time_decay := (0.5 : ℝ) ^ (hours_passed / HALF_LIFE_HOURS)
  let time_decay := if hours_passed < 24 then time_decay * 1.2 else time_decay
  let quality_factor := level_weight a * sentiment_boost a
  let hot_score := interaction_score * time_decay * quality_factor
  let hot_score :=
    match a.category with
    | some c =>
        match category_boosts c with
        | some b => hot_score * b
        | none => hot_score
    | none => hot_score
  roundTo2 hot_score

end

end HotScoreService

/-! Cache layer (src/src/utils/cache.py).  The Redis key space is modelled
as an association list of entries with an optional TTL; glob patterns of
the form "p*" match keys with prefix p (the only pattern shape the source
uses). -/

/-- One cached key/value pair with its TTL in seconds. -/
structure CacheEntry (α : Type) where
  key : String
  value : α
  ttl : Option Nat
deriving DecidableEq, Repr

/-- The whole key/value store. -/
abbrev Cache (α : Type) := List (CacheEntry α)

namespace RedisCache

/-- Redis glob match, restricted to the trailing-star patterns the source
passes to delete_pattern. -/
def matchesPattern (pat key : String) : Bool :=
  if pat.data.getLast? == some '*' then strIsPrefixOf (String.mk pat.data.dropLast) key
  else pat == key

/-- RedisCache.get. -/
def get {α : Type} (key : String) (c : Cache α) : Option α :=
  (c.find? (fun e => e.key == key)).map CacheEntry.value

/-- RedisCache.set / setex: upsert the key with the given TTL. -/
def set {α : Type} (key : String) (v : α) (ttl : Option Nat) (c : Cache α) : Cache α :=
  if c.any (fun e => e.key == key) then
    c.map (fun e => if e.key == key then { key := key, value := v, ttl := ttl } else e)
  else
    { key := key, value := v, ttl := ttl } :: c

/-- RedisCache.delete_pattern: drop every key matching the pattern. -/
def delete_pattern {α : Type} (pat : String) (c : Cache α) : Cache α :=
  c.filter (fun e => !matchesPattern pat e.key)

end RedisCache

/-- invalidate_article_cache (src/src/utils/cache.py lines 167-184): delete
all hot_articles / trending_articles / article_stats entries, plus the
per-article entries when a (truthy, i.e. nonzero) article_id is given. -/
def invalidate_article_cache {α : Type} (article_id : Option Nat) (c : Cache α) : Cache α :=
  let patterns := ["hot_articles:*", "trending_articles:*", "article_stats:*"]
  let patterns :=
    match article_id with
    | some i => if i ≠ 0 then patterns ++ ["article:" ++ toString i ++ ":*"] else patterns
    | none => patterns
  patterns.foldl (fun acc pat => RedisCache.delete_pattern pat acc) c

/-! Interaction mutations and the batch recompute
(src/src/services/hot_score_service.py).  The article store is a list of
rows keyed by id; each mutation acts on the store and the cache and returns
the success flag the service returns. -/

/-- One articles row as the mutation paths see it: the scoring columns plus
the derived hot_score columns. -/
structure ArticleRow where
  id : Nat
  art : Article
  hot_score : ℝ
  hot_score_updated_at : Option ℝ

namespace HotScoreService

noncomputable section

/-- HotScoreService.increment_view_count (lines 261-286): bump view_count,
recompute hot_score at the current time, commit, invalidate the article
cache; a missing article returns False and touches nothing. -/
def increment_view_count {α : Type} (article_id : Nat) (now : ℝ)
    (db : List ArticleRow) (c : Cache α) : Bool × List ArticleRow × Cache α :=
  match db.find? (fun r => r.id == article_id) with
  | none => (false, db, c)
  | some _ =>
      let db' := db.map (fun r =>
        if r.id == article_id then
          let a' := { r.art with view_count := r.art.view_count + 1 }
          { r with art := a', hot_score := calculate_hot_score a' now,
                   hot_score_updated_at := some now }
        else r)
      (true, db', invalidate_article_cache (some article_id) c)

/-- HotScoreService.toggle_like (lines 288-318): like_count goes up by one
or down to max(0, like_count - 1), then the same recompute/commit/invalidate
as the other mutations. -/
def toggle_like {α : Type} (article_id : Nat) (is_like : Bool) (now : ℝ)
    (db : List ArticleRow) (c : Cache α) : Bool × List ArticleRow × Cache α :=
  match db.find? (fun r => r.id == article_id) with
  | none => (false, db, c)
  | some _ =>
      let db' := db.map (fun r =>
        if r.id == article_id then
          let a' := { r.art with like_count :=
            if is_like then r.art.like_count + 1 else max 0 (r.art.like_count - 1) }
          { r with art := a', hot_score := calculate_hot_score a' now,
                   hot_score_updated_at := some now }
        else r)
      (true, db', invalidate_article_cache (some article_id) c)

/-- HotScoreService.increment_share_count (lines 320-345). -/
def increment_share_count {α : Type} (article_id : Nat) (now : ℝ)
    (db : List ArticleRow) (c : Cache α) : Bool × List ArticleRow × Cache α :=
  match db.find? (fun r => r.id == article_id) with
  | none => (false, db, c)
  | some _ =>
      let db' := db.map (fun r =>
        if r.id == article_id then
          let a' := { r.art with share_count := r.art.share_count + 1 }
          { r with art := a', hot_score := calculate_hot_score a' now,
                   hot_score_updated_at := some now }
        else r)
      (true, db', invalidate_article_cache (some article_id) c)

/-- HotScoreService.batch_update_hot_scores (lines 129-159): recompute the
score of every article crawled within the trailing days_back window and
return the count; the cache is not touched anywhere on this path (nor by
its only caller, the update-hot-scores route). -/
def batch_update_hot_scores {α : Type} (days_back : Nat) (now : ℝ)
    (db : List ArticleRow) (c : Cache α) : Nat × List ArticleRow × Cache α :=
  let cutoff := now - (days_back : ℝ) * 86400
  let db' := db.map (fun r =>
    if cutoff ≤ r.art.crawl_time then
      { r with hot_score := calculate_hot_score r.art now,
               hot_score_updated_at := some now }
    else r)
  let updated_count := (db.filter (fun r => decide (cutoff ≤ r.art.crawl_time))).length
  (updated_count, db', c)

/-- A sequence of toggle_like calls ((article_id, is_like) pairs), folded
over the store and cache. -/
def toggle_like_seq {α : Type} (ops : List (Nat × Bool)) (now : ℝ)
    (st : List ArticleRow × Cache α) : List ArticleRow × Cache α :=
  ops.foldl (fun st op => ((toggle_like op.1 op.2 now st.1 st.2).2.1,
                           (toggle_like op.1 op.2 now st.1 st.2).2.2)) st

end

end HotScoreService

/-! Ranked-list query (HotScoreService.get_hot_articles).  This path only
reads the stored hot_score column and never computes scores, so the stored
numbers are modelled as rationals and the whole query is executable. -/

/-- The article snapshot fields the ranked query filters, orders and
caches. -/
structure HotArticle where
  id : Nat
  category : Option String
  crawl_time : ℚ
  hot_score : ℚ
deriving DecidableEq, Repr

namespace HotScoreService

/-- Python `{x} or 'all'` inside the cache-key f-string: None and the empty
string are falsy. -/
def orAllStr : Option String → String
  | none => "all"
  | some s => if s = "" then "all" else s

/-- The f-string cache key of get_hot_articles. -/
def hot_cache_key (limit : Nat) (category : Option String) (time_range : Option String) :
    String :=
  "hot_articles:limit:" ++ toString limit ++ ":category:" ++ orAllStr category ++
    ":range:" ++ orAllStr time_range

/-- The time_filters dict: a cutoff only for the keys 1d / 7d / 30d; any
other string (including the falsy empty string) applies no time filter. -/
def time_filter_cutoff (time_range : String) (now : ℚ) : Option ℚ :=
  if time_range = "1d" then some (now - 1 * 86400)
  else if time_range = "7d" then some (now - 7 * 86400)
  else if time_range = "30d" then some (now - 30 * 86400)
  else none

/-- ORDER BY hot_score DESC as a mergeSort relation. -/
def hot_desc (a b : HotArticle) : Bool := decide (b.hot_score ≤ a.hot_score)

/-- HotScoreService.get_hot_articles (lines 161-218): return the cached
list when the cached value is truthy (non-empty); otherwise filter by time
range and category, order by hot_score descending, truncate to limit, and
cache the result for 900 seconds when it is truthy (non-empty). -/
def get_hot_articles (db : List HotArticle) (limit : Nat) (category : Option String)
    (time_range : Option String) (now : ℚ) (c : Cache (List HotArticle)) :
    List HotArticle × Cache (List HotArticle) :=
  let key := hot_cache_key limit category time_range
  let db1 :=
    match time_range with
    | some tr =>
        match time_filter_cutoff tr now with
        | some cutoff => db.filter (fun (a : HotArticle) => decide (cutoff ≤ a.crawl_time))
        | none => db
    | none => db
  let db2 :=
    match category with
    | some cat =>
        if cat ≠ "" then db1.filter (fun (a : HotArticle) => a.category == some cat) else db1
    | none => db1
  let articles := (db2.mergeSort hot_desc).take limit
  let missResult :=
    (articles, if articles ≠ [] then RedisCache.set key articles (some 900) c else c)
  match RedisCache.get key c with
  | some cached => if cached ≠ [] then (cached, c) else missResult
  | none => missResult

/-- The time-range filter step of get_hot_articles, named for the proofs. -/
def timeFilteredExpr (db : List HotArticle) (time_range : Option String) (now : ℚ) :
    List HotArticle :=
  match time_range with
  | some tr =>
      match time_filter_cutoff tr now with
      | some cutoff => db.filter (fun (a : HotArticle) => decide (cutoff ≤ a.crawl_time))
      | none => db
  | none => db

/-- The category filter step of get_hot_articles, named for the proofs. -/
def filteredExpr (db : List HotArticle) (category time_range : Option String) (now : ℚ) :
    List HotArticle :=
  match category with
  | some cat =>
      if cat ≠ "" then
        (timeFilteredExpr db time_range now).filter
          (fun (a : HotArticle) => a.category == some cat)
      else timeFilteredExpr db time_range now
  | none => timeFilteredExpr db time_range now

/-- The full filter-sort-truncate query of get_hot_articles, named for the
proofs. -/
def queryExpr (db : List HotArticle) (limit : Nat) (category time_range : Option String)
    (now : ℚ) : List HotArticle :=
  ((filteredExpr db category time_range now).mergeSort hot_desc).take limit

/-- The combined row predicate of the two WHERE clauses of get_hot_articles
as one boolean test: the article passes the (truthy) category filter and
the (recognized) time-range filter. -/
def matchesHotFilter (category time_range : Option String) (now : ℚ)
    (a : HotArticle) : Bool :=
  (match category with
   | some cat => if cat ≠ "" then a.category == some cat else true
   | none => true)
  &&
  (match time_range with
   | some tr =>
       match time_filter_cutoff tr now with
       | some cutoff => decide (cutoff ≤ a.crawl_time)
       | none => true
   | none => true)

end HotScoreService

/-! Batch deletion of task history
(delete_batch_task_history, src/src/api/routers/tasks.py lines 312-360). -/

/-- The JSON body of the batch-delete response; not_found_task_ids is only
included when some requested ids were missing. -/
structure BatchDeleteResponse where
  deleted_count : Nat
  deleted_task_ids : List String
  not_found_task_ids : Option (List String)
deriving DecidableEq, Repr

/-- delete_batch_task_history: reject an empty batch (400) or one of more
than 100 ids (400) or one matching no stored row (404); otherwise delete
exactly the stored rows whose task_id is in the batch, and answer with the
deleted ids and, when non-empty, the ids that matched nothing. -/
def delete_batch_task_history (db : List TaskHistory) (task_ids : List String) :
    Except Nat (BatchDeleteResponse × List TaskHistory) :=
  if task_ids = [] then .error 400
  else if task_ids.length > 100 then .error 400
  else
    let existing := db.filter (fun t => task_ids.contains t.task_id)
    if existing = [] then .error 404
    else
      let existing_ids := existing.map (fun t => t.task_id)
      let not_found := task_ids.filter (fun tid => !existing_ids.contains tid)
      let deleted_count := (db.filter (fun t => existing_ids.contains t.task_id)).length
      let db' := db.filter (fun t => !existing_ids.contains t.task_id)
      .ok ({ deleted_count := deleted_count
             deleted_task_ids := existing_ids
             not_found_task_ids := if not_found ≠ [] then some not_found else none },
           db')

/-! Theorems. -/

/-- C1 counterexample: starting from no row, recordStart then recordSuccess
stores a terminal SUCCESS row, yet a re-delivered recordStart flips the
stored status back to the non-terminal RUNNING. -/
theorem redelivered_start_overwrites_terminal_cx :
    ((on_success ⟨"app.crawl_url", none, none⟩ (.str "ok") "t1" [] [] 1
        (before_start ⟨"app.crawl_url", none, none⟩ "t1" [] [] 0 none)).map
      TaskHistory.status) = some .success
  ∧ ((before_start ⟨"app.crawl_url", none, none⟩ "t1" [] [] 2
        (on_success ⟨"app.crawl_url", none, none⟩ (.str "ok") "t1" [] [] 1
          (before_start ⟨"app.crawl_url", none, none⟩ "t1" [] [] 0 none))).map
      TaskHistory.status) = some .running
  ∧ TaskStatus.success.isTerminal = true
  ∧ TaskStatus.running.isTerminal = false := by
  refine ⟨rfl, rfl, rfl, rfl⟩

/-- C1 amended: on an existing row with terminal status, on_success,
on_failure and cancel leave a terminal status (SUCCESS, FAILURE, REVOKED
respectively), but a re-delivered before_start overwrites it with the
non-terminal RUNNING and a re-delivered on_retry with RETRY. -/
theorem terminal_status_after_callbacks (ctx : CallbackCtx) (h : TaskHistory)
    (hterm : h.status.isTerminal = true) (retval : Jv) (tid : String)
    (args : List Jv) (kwargs : List (String × Jv)) (now : Nat)
    (exc : String) (einfo : Option String) :
    (on_success ctx retval tid args kwargs now (some h)).map TaskHistory.status
        = some .success
  ∧ (on_failure ctx exc einfo tid args kwargs now (some h)).map TaskHistory.status
        = some .failure
  ∧ (cancel_task now (some h)).map TaskHistory.status = some .revoked
  ∧ (before_start ctx tid args kwargs now (some h)).map TaskHistory.status
        = some .running
  ∧ (on_retry ctx exc tid (some h)).map TaskHistory.status = some .retry :=
  ⟨rfl, rfl, rfl, rfl, rfl⟩

/-- C1 witness: the amended statement evaluated on a concrete SUCCESS row. -/
theorem terminal_status_after_callbacks_witness :
    (on_success ⟨"app.crawl_url", none, none⟩ (.str "ok") "t1" [] [] 3
        (some { task_id := "t1", task_name := "app.crawl_url",
                task_type := "crawl_url", status := .success })).map TaskHistory.status
        = some .success
  ∧ (on_failure ⟨"app.crawl_url", none, none⟩ "boom" none "t1" [] [] 3
        (some { task_id := "t1", task_name := "app.crawl_url",
                task_type := "crawl_url", status := .success })).map TaskHistory.status
        = some .failure
  ∧ (cancel_task 3
        (some { task_id := "t1", task_name := "app.crawl_url",
                task_type := "crawl_url", status := .success })).map TaskHistory.status
        = some .revoked
  ∧ (before_start ⟨"app.crawl_url", none, none⟩ "t1" [] [] 3
        (some { task_id := "t1", task_name := "app.crawl_url",
                task_type := "crawl_url", status := .success })).map TaskHistory.status
        = some .running
  ∧ (on_retry ⟨"app.crawl_url", none, none⟩ "boom" "t1"
        (some { task_id := "t1", task_name := "app.crawl_url",
                task_type := "crawl_url", status := .success })).map TaskHistory.status
        = some .retry :=
  terminal_status_after_callbacks ⟨"app.crawl_url", none, none⟩
    { task_id := "t1", task_name := "app.crawl_url",
      task_type := "crawl_url", status := .success }
    rfl (.str "ok") "t1" [] [] 3 "boom" none

/-- C2 counterexample: calling before_start twice with identical arguments
does not leave the row as the first call left it, because the second call
increments retry_count (0 after one call, 1 after two). -/
theorem before_start_not_idempotent_cx :
    before_start ⟨"app.crawl_url", none, none⟩ "t1" [] [] 5
        (before_start ⟨"app.crawl_url", none, none⟩ "t1" [] [] 5 none)
      ≠ before_start ⟨"app.crawl_url", none, none⟩ "t1" [] [] 5 none
  ∧ ((before_start ⟨"app.crawl_url", none, none⟩ "t1" [] [] 5
        (before_start ⟨"app.crawl_url", none, none⟩ "t1" [] [] 5 none)).map
      TaskHistory.retry_count) = some 1
  ∧ ((before_start ⟨"app.crawl_url", none, none⟩ "t1" [] [] 5 none).map
      TaskHistory.retry_count) = some 0 := by
  refine ⟨?_, rfl, rfl⟩
  decide

/-- C2 amended: with the timestamps held fixed, on_success and on_failure
are idempotent on any starting state, but before_start is not: a second
call returns the first call's row with retry_count incremented by one. -/
theorem recorder_idempotency (ctx : CallbackCtx) (s : Option TaskHistory)
    (retval : Jv) (tid : String) (args : List Jv) (kwargs : List (String × Jv))
    (now : Nat) (exc : String) (einfo : Option String) :
    on_success ctx retval tid args kwargs now
        (on_success ctx retval tid args kwargs now s)
      = on_success ctx retval tid args kwargs now s
  ∧ on_failure ctx exc einfo tid args kwargs now
        (on_failure ctx exc einfo tid args kwargs now s)
      = on_failure ctx exc einfo tid args kwargs now s
  ∧ before_start ctx tid args kwargs now (before_start ctx tid args kwargs now s)
      = (before_start ctx tid args kwargs now s).map
          (fun h => { h with retry_count := h.retry_count + 1 }) := by
  rcases s with _ | h
  · refine ⟨?_, ?_, ?_⟩ <;>
      simp only [on_success, on_failure, before_start, set_url_fields] <;>
      split_ifs <;> rfl
  · exact ⟨rfl, rfl, rfl⟩

/-- C2 witness: the amended statement evaluated from the empty state with
concrete arguments. -/
theorem recorder_idempotency_witness :
    on_success ⟨"app.crawl_url", none, none⟩ (.str "ok") "t1" [] [] 7
        (on_success ⟨"app.crawl_url", none, none⟩ (.str "ok") "t1" [] [] 7 none)
      = on_success ⟨"app.crawl_url", none, none⟩ (.str "ok") "t1" [] [] 7 none
  ∧ on_failure ⟨"app.crawl_url", none, none⟩ "boom" none "t1" [] [] 7
        (on_failure ⟨"app.crawl_url", none, none⟩ "boom" none "t1" [] [] 7 none)
      = on_failure ⟨"app.crawl_url", none, none⟩ "boom" none "t1" [] [] 7 none
  ∧ before_start ⟨"app.crawl_url", none, none⟩ "t1" [] [] 7
        (before_start ⟨"app.crawl_url", none, none⟩ "t1" [] [] 7 none)
      = (before_start ⟨"app.crawl_url", none, none⟩ "t1" [] [] 7 none).map
          (fun h => { h with retry_count := h.retry_count + 1 }) :=
  recorder_idempotency ⟨"app.crawl_url", none, none⟩ none (.str "ok") "t1" [] []
    7 "boom" none

/-- C4 counterexample: a crawl_url execution that fails with a
validation-style error (any raised exception that is not a timeout) is
rescheduled for retry with a 30 second countdown, not failed immediately. -/
theorem crawl_url_validation_error_retried_cx :
    crawl_url "not-a-url" (.raised "ValueError: malformed input") 0
      = .retryAfter 30 := rfl

/-- C4 amended: the crawl_url body classifies no error as non-retryable: it
never fails without a retry request; a timeout is retried after 60 seconds
and every other failure (non-zero exit or any raised exception, including
validation errors) after 30 seconds; only exit code 0 succeeds. -/
theorem crawl_url_every_error_retried (url : String) (sub : SubprocessResult)
    (now : Nat) :
    (∀ m, crawl_url url sub now ≠ .failNoRetry m)
  ∧ crawl_url url .timedOut now = .retryAfter 60
  ∧ (∀ msg, crawl_url url (.raised msg) now = .retryAfter 30)
  ∧ (∀ rc stderr, rc ≠ 0 → crawl_url url (.completed rc stderr) now = .retryAfter 30)
  ∧ (∀ stderr, crawl_url url (.completed 0 stderr) now = .success url now) := by
  refine ⟨?_, rfl, fun _ => rfl, ?_, fun _ => rfl⟩
  · intro m hc
    cases sub with
    | completed rc st =>
        rcases eq_or_ne rc 0 with h | h <;> simp [crawl_url, h] at hc
    | timedOut => simp [crawl_url] at hc
    | raised msg => simp [crawl_url] at hc
  · intro rc stderr h
    simp [crawl_url, h]

/-- C4 witness: the amended statement evaluated at a non-zero exit code. -/
theorem crawl_url_every_error_retried_witness :
    crawl_url "http://x" (.completed 1 "boom") 0 = .retryAfter 30 :=
  (crawl_url_every_error_retried "http://x" (.completed 1 "boom") 0).2.2.2.1
    1 "boom" (by decide)

/-- C5 counterexample: cancelling a task for which no history row exists
(the situation of a PENDING job never claimed by any worker, since rows are
only created by worker callbacks) stores nothing at all — no REVOKED
record. -/
theorem cancel_pending_stores_nothing_cx :
    ¬ ∃ h : TaskHistory, cancel_task 0 none = some h := by
  rintro ⟨h, hc⟩
  exact Option.noConfusion hc

/-- C5 amended: cancel marks the job REVOKED with completed_at set only
when a history row already exists; when none exists (in particular for a
PENDING job never claimed by a worker) it creates no record. -/
theorem cancel_task_updates_only_existing (now : Nat) (h : TaskHistory) :
    cancel_task now (some h)
        = some { h with status := .revoked, completed_at := some now }
  ∧ cancel_task now none = none := ⟨rfl, rfl⟩

/-- C9: a non-empty batch of at most 100 ids with at least one stored id is
deleted without error: exactly the stored rows whose task_id is in the
batch are removed (rows not named are untouched), the response lists the
deleted ids, and the ids matching no row are reported as not found. -/
theorem delete_batch_mixed (db : List TaskHistory) (ids : List String)
    (h1 : ids ≠ []) (h2 : ids.length ≤ 100) (h3 : ∃ t ∈ db, t.task_id ∈ ids) :
    ∃ resp db',
      delete_batch_task_history db ids = .ok (resp, db')
      ∧ db' = db.filter (fun t => !ids.contains t.task_id)
      ∧ resp.deleted_task_ids
          = (db.filter (fun t => ids.contains t.task_id)).map (fun t => t.task_id)
      ∧ resp.deleted_count = (db.filter (fun t => ids.contains t.task_id)).length
      ∧ resp.not_found_task_ids
          = (if ids.filter (fun tid => !(db.map (fun t => t.task_id)).contains tid) ≠ []
             then some (ids.filter (fun tid => !(db.map (fun t => t.task_id)).contains tid))
             else none) := by
  obtain ⟨t0, ht0, hid0⟩ := h3
  have hlen : ¬ ids.length > 100 := by omega
  have hexist : db.filter (fun t => ids.contains t.task_id) ≠ [] := by
    apply List.ne_nil_of_mem (a := t0)
    simp only [List.mem_filter, ht0, true_and]
    simpa using hid0
  have key : ∀ t ∈ db,
      ((db.filter (fun u => ids.contains u.task_id)).map
          (fun u => u.task_id)).contains t.task_id
        = ids.contains t.task_id := by
    intro t ht
    rw [Bool.eq_iff_iff]
    simp
    exact ⟨fun ⟨u, ⟨_, hui⟩, heq⟩ => heq ▸ hui, fun h => ⟨t, ⟨ht, h⟩, rfl⟩⟩
  have key2 : ∀ tid ∈ ids,
      (!((db.filter (fun u => ids.contains u.task_id)).map
          (fun u => u.task_id)).contains tid)
        = (!(db.map (fun t => t.task_id)).contains tid) := by
    intro tid htid
    congr 1
    rw [Bool.eq_iff_iff]
    simp
    exact ⟨fun ⟨u, ⟨hu, _⟩, heq⟩ => ⟨u, hu, heq⟩,
      fun ⟨u, hu, heq⟩ => ⟨u, ⟨hu, heq ▸ htid⟩, heq⟩⟩
  have hfilter1 : db.filter (fun t =>
        !((db.filter (fun u => ids.contains u.task_id)).map
            (fun u => u.task_id)).contains t.task_id)
      = db.filter (fun t => !ids.contains t.task_id) :=
    List.filter_congr (fun t ht => by rw [key t ht])
  have hfilter2 : db.filter (fun t =>
        ((db.filter (fun u => ids.contains u.task_id)).map
            (fun u => u.task_id)).contains t.task_id)
      = db.filter (fun t => ids.contains t.task_id) :=
    List.filter_congr (fun t ht => key t ht)
  have hfilter3 : ids.filter (fun tid =>
        !((db.filter (fun u => ids.contains u.task_id)).map
            (fun u => u.task_id)).contains tid)
      = ids.filter (fun tid => !(db.map (fun t => t.task_id)).contains tid) :=
    List.filter_congr (fun tid htid => key2 tid htid)
  unfold delete_batch_task_history
  simp only [if_neg h1, if_neg hlen, if_neg hexist]
  exact ⟨_, _, rfl, hfilter1, rfl, congrArg List.length hfilter2, by rw [hfilter3]⟩

/-- C9 witness: the batch-delete contract evaluated on a one-row store and
the id batch ["a", "b"]. -/
theorem delete_batch_mixed_witness :
    ∃ resp db',
      delete_batch_task_history
          ([{ task_id := "a", task_name := "n", task_type := "crawl_url" }] :
            List TaskHistory) ["a", "b"]
        = .ok (resp, db')
      ∧ db' = ([{ task_id := "a", task_name := "n", task_type := "crawl_url" }] :
            List TaskHistory).filter (fun t => !(["a", "b"].contains t.task_id))
      ∧ resp.deleted_task_ids
          = (([{ task_id := "a", task_name := "n", task_type := "crawl_url" }] :
                List TaskHistory).filter
                (fun t => ["a", "b"].contains t.task_id)).map (fun t => t.task_id)
      ∧ resp.deleted_count
          = (([{ task_id := "a", task_name := "n", task_type := "crawl_url" }] :
                List TaskHistory).filter
                (fun t => ["a", "b"].contains t.task_id)).length
      ∧ resp.not_found_task_ids
          = (if ["a", "b"].filter (fun tid =>
                !((([{ task_id := "a", task_name := "n", task_type := "crawl_url" }] :
                      List TaskHistory).map (fun t => t.task_id)).contains tid)) ≠ []
             then some (["a", "b"].filter (fun tid =>
                !((([{ task_id := "a", task_name := "n", task_type := "crawl_url" }] :
                      List TaskHistory).map (fun t => t.task_id)).contains tid)))
             else none) :=
  delete_batch_mixed
    [{ task_id := "a", task_name := "n", task_type := "crawl_url" }] ["a", "b"]
    (by decide) (by decide)
    ⟨{ task_id := "a", task_name := "n", task_type := "crawl_url" },
      by simp, by decide⟩

/-- The sequential time-range and category filters of get_hot_articles
equal one pass of the combined row predicate over the store. -/
theorem filteredExpr_eq_filter (db : List HotArticle)
    (category time_range : Option String) (now : ℚ) :
    HotScoreService.filteredExpr db category time_range now
      = db.filter (HotScoreService.matchesHotFilter category time_range now) := by
  unfold HotScoreService.filteredExpr HotScoreService.timeFilteredExpr
    HotScoreService.matchesHotFilter
  rcases category with _ | cat
  · rcases time_range with _ | tr
    · simp
    · rcases hcut : HotScoreService.time_filter_cutoff tr now with _ | cutoff <;>
        simp [hcut]
  · by_cases hc : cat = ""
    · subst hc
      simp only [ne_eq, not_true_eq_false, if_false]
      rcases time_range with _ | tr
      · simp
      · rcases hcut : HotScoreService.time_filter_cutoff tr now with _ | cutoff <;>
          simp [hcut]
    · simp only [ne_eq, hc, not_false_eq_true, if_true]
      rcases time_range with _ | tr
      · simp
      · rcases hcut : HotScoreService.time_filter_cutoff tr now with _ | cutoff
        · simp [hcut]
        · simp only [hcut]
          rw [List.filter_filter]

/-- C8 counterexample: a ranked query on an empty store with an empty cache
is a cache miss whose (empty) result is not stored — the cache stays empty,
so a miss does not always store its result. -/
theorem get_hot_articles_empty_not_cached_cx :
    HotScoreService.get_hot_articles [] 10 none none 0 [] = ([], []) := by
  simp [HotScoreService.get_hot_articles, RedisCache.get]

/-- C8 amended: get_hot_articles returns the cached list unchanged on a hit
(a non-empty cached value); on a miss it returns exactly the articles of
the store that match the category and time-range filters — some reordering
L of the filtered store that is sorted by hot_score descending — truncated
to limit, and stores that result under the query key with the 900-second
TTL when it is non-empty — an empty result (and an empty cached value,
which is treated as a miss) leaves the cache unchanged. -/
theorem get_hot_articles_spec (db : List HotArticle) (limit : Nat)
    (category time_range : Option String) (now : ℚ)
    (c : Cache (List HotArticle)) :
    (∀ cached,
        RedisCache.get (HotScoreService.hot_cache_key limit category time_range) c
            = some cached →
        cached ≠ [] →
        HotScoreService.get_hot_articles db limit category time_range now c
          = (cached, c))
  ∧ ((RedisCache.get (HotScoreService.hot_cache_key limit category time_range) c = none
      ∨ RedisCache.get (HotScoreService.hot_cache_key limit category time_range) c
          = some []) →
      (HotScoreService.get_hot_articles db limit category time_range now c).1.Pairwise
          (fun a b => b.hot_score ≤ a.hot_score)
      ∧ (HotScoreService.get_hot_articles db limit category time_range now c).1.length
          ≤ limit
      ∧ (∀ a ∈ (HotScoreService.get_hot_articles db limit category time_range now c).1,
          a ∈ db
          ∧ (∀ tr cutoff, time_range = some tr →
              HotScoreService.time_filter_cutoff tr now = some cutoff →
              cutoff ≤ a.crawl_time)
          ∧ (∀ cat, category = some cat → cat ≠ "" → a.category = some cat))
      ∧ (∃ L : List HotArticle,
          L.Perm (db.filter (HotScoreService.matchesHotFilter category time_range now))
          ∧ L.Pairwise (fun a b => b.hot_score ≤ a.hot_score)
          ∧ (HotScoreService.get_hot_articles db limit category time_range now c).1
              = L.take limit)
      ∧ ((HotScoreService.get_hot_articles db limit category time_range now c).1 ≠ [] →
          (HotScoreService.get_hot_articles db limit category time_range now c).2
            = RedisCache.set (HotScoreService.hot_cache_key limit category time_range)
                (HotScoreService.get_hot_articles db limit category time_range now c).1
                (some 900) c)
      ∧ ((HotScoreService.get_hot_articles db limit category time_range now c).1 = [] →
          (HotScoreService.get_hot_articles db limit category time_range now c).2 = c)) := by
  constructor
  · intro cached hg hne
    simp only [HotScoreService.get_hot_articles]
    rw [hg]
    simp [hne]
  · intro hmiss
    have heq : HotScoreService.get_hot_articles db limit category time_range now c
        = (HotScoreService.queryExpr db limit category time_range now,
           if HotScoreService.queryExpr db limit category time_range now ≠ [] then
             RedisCache.set (HotScoreService.hot_cache_key limit category time_range)
               (HotScoreService.queryExpr db limit category time_range now) (some 900) c
           else c) := by
      rcases hmiss with hg | hg <;>
        · simp only [HotScoreService.get_hot_articles, HotScoreService.queryExpr]
          rw [hg]
          rfl
    have htrans : ∀ a b d : HotArticle, HotScoreService.hot_desc a b = true →
        HotScoreService.hot_desc b d = true → HotScoreService.hot_desc a d = true := by
      intro a b d hab hbd
      simp only [HotScoreService.hot_desc, decide_eq_true_eq] at *
      exact le_trans hbd hab
    have htotal : ∀ a b : HotArticle,
        (HotScoreService.hot_desc a b || HotScoreService.hot_desc b a) = true := by
      intro a b
      simp only [HotScoreService.hot_desc, Bool.or_eq_true, decide_eq_true_eq]
      exact le_total b.hot_score a.hot_score
    have hs := List.sorted_mergeSort htrans htotal
      (HotScoreService.filteredExpr db category time_range now)
    have hp : (HotScoreService.filteredExpr db category time_range now).mergeSort
        HotScoreService.hot_desc |>.Pairwise (fun a b => b.hot_score ≤ a.hot_score) :=
      hs.imp (fun h => by
        simpa [HotScoreService.hot_desc, decide_eq_true_eq] using h)
    refine ⟨?_, ?_, ?_, ?_, ?_, ?_⟩
    · rw [heq]
      exact hp.sublist (List.take_sublist _ _)
    · rw [heq]
      simp only [HotScoreService.queryExpr]
      rw [List.length_take]
      exact min_le_left _ _
    · rw [heq]
      intro a ha
      have ha2 : a ∈ HotScoreService.filteredExpr db category time_range now :=
        List.mem_mergeSort.mp (List.take_subset _ _ ha)
      have hdb1 : ∀ x : HotArticle,
          x ∈ HotScoreService.timeFilteredExpr db time_range now →
          x ∈ db ∧ (∀ tr cutoff, time_range = some tr →
            HotScoreService.time_filter_cutoff tr now = some cutoff →
            cutoff ≤ x.crawl_time) := by
        intro x hx
        rcases time_range with _ | tr
        · exact ⟨hx, fun tr cutoff h => by cases h⟩
        · simp only [HotScoreService.timeFilteredExpr] at hx
          rcases hcut : HotScoreService.time_filter_cutoff tr now with _ | cutoff
          · rw [hcut] at hx
            refine ⟨hx, ?_⟩
            rintro tr' cutoff' ⟨rfl⟩ h2
            rw [hcut] at h2
            cases h2
          · rw [hcut] at hx
            rw [List.mem_filter] at hx
            refine ⟨hx.1, ?_⟩
            rintro tr' cutoff' ⟨rfl⟩ h2
            rw [hcut] at h2
            cases h2
            simpa using hx.2
      rcases category with _ | cat
      · obtain ⟨hxdb, hxt⟩ := hdb1 a ha2
        exact ⟨hxdb, hxt, fun cat h => by cases h⟩
      · by_cases hc : cat = ""
        · subst hc
          simp only [HotScoreService.filteredExpr, ne_eq, not_true_eq_false,
            if_false] at ha2
          obtain ⟨hxdb, hxt⟩ := hdb1 a ha2
          refine ⟨hxdb, hxt, ?_⟩
          rintro cat' ⟨rfl⟩ hne
          exact absurd rfl hne
        · simp only [HotScoreService.filteredExpr, ne_eq, hc, not_false_eq_true,
            if_true, List.mem_filter] at ha2
          obtain ⟨hxdb, hxt⟩ := hdb1 a ha2.1
          refine ⟨hxdb, hxt, ?_⟩
          rintro cat' ⟨rfl⟩ hne
          simpa using ha2.2
    · refine ⟨(HotScoreService.filteredExpr db category time_range now).mergeSort
        HotScoreService.hot_desc, ?_, hp, ?_⟩
      · have hperm := List.mergeSort_perm
          (HotScoreService.filteredExpr db category time_range now)
          HotScoreService.hot_desc
        nth_rewrite 2 [filteredExpr_eq_filter] at hperm
        exact hperm
      · rw [heq]
        rfl
    · rw [heq]
      intro hne
      dsimp only at hne ⊢
      rw [if_pos hne]
    · rw [heq]
      intro hnil
      dsimp only at hnil ⊢
      rw [if_neg (by simp [hnil])]

/-- C8 witness: the get_hot_articles contract evaluated on a two-article
store with an empty cache (a miss) and on a one-entry cache (a hit). -/
theorem get_hot_articles_spec_witness :
    ((HotScoreService.get_hot_articles
        [⟨1, none, 0, 5⟩, ⟨2, none, 0, 9⟩] 2 none none 0 []).1.Pairwise
      (fun a b => b.hot_score ≤ a.hot_score))
  ∧ (HotScoreService.get_hot_articles
        [⟨1, none, 0, 5⟩, ⟨2, none, 0, 9⟩] 2 none none 0 []).1.length ≤ 2
  ∧ (∃ L : List HotArticle,
      L.Perm (List.filter (HotScoreService.matchesHotFilter none none 0)
        [⟨1, none, 0, 5⟩, ⟨2, none, 0, 9⟩])
      ∧ L.Pairwise (fun a b => b.hot_score ≤ a.hot_score)
      ∧ (HotScoreService.get_hot_articles
          [⟨1, none, 0, 5⟩, ⟨2, none, 0, 9⟩] 2 none none 0 []).1 = L.take 2)
  ∧ HotScoreService.get_hot_articles [⟨1, none, 0, 5⟩] 2 none none 0
        [⟨HotScoreService.hot_cache_key 2 none none, [⟨3, none, 0, 7⟩], some 900⟩]
      = ([⟨3, none, 0, 7⟩],
         [⟨HotScoreService.hot_cache_key 2 none none, [⟨3, none, 0, 7⟩], some 900⟩]) :=
  ⟨((get_hot_articles_spec [⟨1, none, 0, 5⟩, ⟨2, none, 0, 9⟩] 2 none none 0 []).2
      (Or.inl rfl)).1,
   ((get_hot_articles_spec [⟨1, none, 0, 5⟩, ⟨2, none, 0, 9⟩] 2 none none 0 []).2
      (Or.inl rfl)).2.1,
   ((get_hot_articles_spec [⟨1, none, 0, 5⟩, ⟨2, none, 0, 9⟩] 2 none none 0 []).2
      (Or.inl rfl)).2.2.2.1,
   (get_hot_articles_spec [⟨1, none, 0, 5⟩] 2 none none 0
      [⟨HotScoreService.hot_cache_key 2 none none, [⟨3, none, 0, 7⟩], some 900⟩]).1
      [⟨3, none, 0, 7⟩] (by rfl) (List.cons_ne_nil _ _)⟩

/-- Concrete evaluation of the three trailing-star patterns used by
invalidate_article_cache. -/
theorem matchesPattern_eq_strIsPrefixOf (k : String) :
    RedisCache.matchesPattern "hot_articles:*" k = strIsPrefixOf "hot_articles:" k
  ∧ RedisCache.matchesPattern "trending_articles:*" k
      = strIsPrefixOf "trending_articles:" k
  ∧ RedisCache.matchesPattern "article_stats:*" k = strIsPrefixOf "article_stats:" k := by
  refine ⟨?_, ?_, ?_⟩ <;>
    · rw [RedisCache.matchesPattern, if_pos (by decide)]
      exact congrArg (fun s => strIsPrefixOf s k) (by decide)

/-- invalidate_article_cache removes every entry whose key carries one of
the three ranked-list prefixes, whatever the article id argument. -/
theorem invalidate_article_cache_no_ranked {α : Type} (id? : Option Nat)
    (c : Cache α) :
    ∀ e ∈ invalidate_article_cache id? c,
      strIsPrefixOf "hot_articles:" e.key = false
      ∧ strIsPrefixOf "trending_articles:" e.key = false
      ∧ strIsPrefixOf "article_stats:" e.key = false := by
  intro e he
  have conv3 : ∀ p q : String,
      RedisCache.matchesPattern p e.key = strIsPrefixOf q e.key →
      (!RedisCache.matchesPattern p e.key) = true → strIsPrefixOf q e.key = false := by
    intro p q hpq hb
    rw [← hpq]
    simpa using hb
  have hsub : ∀ (ps : List String) (c0 : Cache α),
      e ∈ List.foldl (fun acc pat => RedisCache.delete_pattern pat acc) c0 ps →
      e ∈ c0 := by
    intro ps
    induction ps with
    | nil => intro c0 hm; exact hm
    | cons p ps ih =>
        intro c0 hm
        exact List.mem_of_mem_filter (ih _ hm)
  have hform : ∃ rest, invalidate_article_cache id? c
      = List.foldl (fun acc pat => RedisCache.delete_pattern pat acc)
          (RedisCache.delete_pattern "article_stats:*"
            (RedisCache.delete_pattern "trending_articles:*"
              (RedisCache.delete_pattern "hot_articles:*" c))) rest := by
    rcases id? with _ | i
    · exact ⟨[], rfl⟩
    · by_cases hi : i = 0
      · subst hi
        exact ⟨[], rfl⟩
      · refine ⟨["article:" ++ toString i ++ ":*"], ?_⟩
        simp only [invalidate_article_cache, if_pos hi, List.cons_append,
          List.nil_append, List.foldl_cons]
  obtain ⟨rest, hrst⟩ := hform
  rw [hrst] at he
  have he3 := hsub rest _ he
  simp only [RedisCache.delete_pattern, List.mem_filter] at he3
  obtain ⟨⟨⟨_, h1⟩, h2⟩, h3⟩ := he3
  exact ⟨conv3 _ _ (matchesPattern_eq_strIsPrefixOf e.key).1 h1,
    conv3 _ _ (matchesPattern_eq_strIsPrefixOf e.key).2.1 h2,
    conv3 _ _ (matchesPattern_eq_strIsPrefixOf e.key).2.2 h3⟩

/-- C3 counterexample: batch_update_hot_scores leaves a hot_articles cache
entry in place — the batch recompute path performs no invalidation at
all. -/
theorem batch_update_cache_untouched_cx :
    (HotScoreService.batch_update_hot_scores (α := String) 7 0 []
        [⟨"hot_articles:limit:10:category:all:range:all", "cached", some 900⟩]).2.2
      = [⟨"hot_articles:limit:10:category:all:range:all", "cached", some 900⟩]
  ∧ strIsPrefixOf "hot_articles:"
      "hot_articles:limit:10:category:all:range:all" = true :=
  ⟨rfl, by decide⟩

/-- C3 amended: each of the three interaction mutations (view increment,
like toggle, share increment) on an existing article deletes every
hot_articles / trending_articles / article_stats cache entry, but the batch
recompute returns the cache unchanged and invalidates nothing. -/
theorem interaction_mutations_invalidate {α : Type} (article_id : Nat)
    (is_like : Bool) (days_back : Nat) (now : ℝ) (db : List ArticleRow)
    (c : Cache α) (hex : ∃ r ∈ db, r.id = article_id) :
    (∀ e ∈ (HotScoreService.increment_view_count article_id now db c).2.2,
        strIsPrefixOf "hot_articles:" e.key = false
        ∧ strIsPrefixOf "trending_articles:" e.key = false
        ∧ strIsPrefixOf "article_stats:" e.key = false)
  ∧ (∀ e ∈ (HotScoreService.toggle_like article_id is_like now db c).2.2,
        strIsPrefixOf "hot_articles:" e.key = false
        ∧ strIsPrefixOf "trending_articles:" e.key = false
        ∧ strIsPrefixOf "article_stats:" e.key = false)
  ∧ (∀ e ∈ (HotScoreService.increment_share_count article_id now db c).2.2,
        strIsPrefixOf "hot_articles:" e.key = false
        ∧ strIsPrefixOf "trending_articles:" e.key = false
        ∧ strIsPrefixOf "article_stats:" e.key = false)
  ∧ (HotScoreService.batch_update_hot_scores days_back now db c).2.2 = c := by
  obtain ⟨r0, hr0, hid0⟩ := hex
  have hfind : ∃ r1, db.find? (fun r => r.id == article_id) = some r1 := by
    have : (db.find? (fun r => r.id == article_id)).isSome := by
      rw [List.find?_isSome]
      exact ⟨r0, hr0, by simpa using hid0⟩
    exact Option.isSome_iff_exists.mp this
  obtain ⟨r1, hr1⟩ := hfind
  refine ⟨?_, ?_, ?_, rfl⟩
  · simp only [HotScoreService.increment_view_count, hr1]
    exact invalidate_article_cache_no_ranked (some article_id) c
  · simp only [HotScoreService.toggle_like, hr1]
    exact invalidate_article_cache_no_ranked (some article_id) c
  · simp only [HotScoreService.increment_share_count, hr1]
    exact invalidate_article_cache_no_ranked (some article_id) c

/-- C3 witness: the invalidation contract evaluated on a one-article store
with a one-entry (hot_articles) cache. -/
theorem interaction_mutations_invalidate_witness :
    (∀ e ∈ (HotScoreService.increment_view_count 1 0
        [⟨1, ⟨0, 0, 0, some 1, none, none, 0⟩, 0, none⟩]
        ([⟨"hot_articles:limit:10:category:all:range:all", "cached", some 900⟩] :
          Cache String)).2.2,
        strIsPrefixOf "hot_articles:" e.key = false
        ∧ strIsPrefixOf "trending_articles:" e.key = false
        ∧ strIsPrefixOf "article_stats:" e.key = false)
  ∧ (∀ e ∈ (HotScoreService.toggle_like 1 true 0
        [⟨1, ⟨0, 0, 0, some 1, none, none, 0⟩, 0, none⟩]
        ([⟨"hot_articles:limit:10:category:all:range:all", "cached", some 900⟩] :
          Cache String)).2.2,
        strIsPrefixOf "hot_articles:" e.key = false
        ∧ strIsPrefixOf "trending_articles:" e.key = false
        ∧ strIsPrefixOf "article_stats:" e.key = false)
  ∧ (∀ e ∈ (HotScoreService.increment_share_count 1 0
        [⟨1, ⟨0, 0, 0, some 1, none, none, 0⟩, 0, none⟩]
        ([⟨"hot_articles:limit:10:category:all:range:all", "cached", some 900⟩] :
          Cache String)).2.2,
        strIsPrefixOf "hot_articles:" e.key = false
        ∧ strIsPrefixOf "trending_articles:" e.key = false
        ∧ strIsPrefixOf "article_stats:" e.key = false)
  ∧ (HotScoreService.batch_update_hot_scores 7 0
        [⟨1, ⟨0, 0, 0, some 1, none, none, 0⟩, 0, none⟩]
        ([⟨"hot_articles:limit:10:category:all:range:all", "cached", some 900⟩] :
          Cache String)).2.2
      = [⟨"hot_articles:limit:10:category:all:range:all", "cached", some 900⟩] :=
  interaction_mutations_invalidate 1 true 7 0
    [⟨1, ⟨0, 0, 0, some 1, none, none, 0⟩, 0, none⟩]
    [⟨"hot_articles:limit:10:category:all:range:all", "cached", some 900⟩]
    ⟨⟨1, ⟨0, 0, 0, some 1, none, none, 0⟩, 0, none⟩, List.mem_singleton.mpr rfl, rfl⟩

/-- One toggle_like call keeps every like_count non-negative. -/
theorem toggle_like_step_nonneg {α : Type} (article_id : Nat) (is_like : Bool)
    (now : ℝ) (db : List ArticleRow) (c : Cache α)
    (h : ∀ r ∈ db, 0 ≤ r.art.like_count) :
    ∀ r ∈ (HotScoreService.toggle_like article_id is_like now db c).2.1,
      0 ≤ r.art.like_count := by
  intro r hr
  rcases hf : db.find? (fun r => r.id == article_id) with _ | r1
  · simp only [HotScoreService.toggle_like, hf] at hr
    exact h r hr
  · simp only [HotScoreService.toggle_like, hf] at hr
    obtain ⟨r0, hr0, rfl⟩ := List.mem_map.mp hr
    have hl := h r0 hr0
    by_cases hc : (r0.id == article_id) = true
    · simp only [hc, if_true]
      cases is_like <;> simp <;> omega
    · simp only [hc, if_false]
      exact hl

/-- toggle_like_seq keeps every like_count non-negative. -/
theorem toggle_like_seq_nonneg {α : Type} (now : ℝ) (ops : List (Nat × Bool)) :
    ∀ (db : List ArticleRow) (c : Cache α),
      (∀ r ∈ db, 0 ≤ r.art.like_count) →
      ∀ r ∈ (HotScoreService.toggle_like_seq ops now (db, c)).1,
        0 ≤ r.art.like_count := by
  induction ops with
  | nil =>
      intro db c h r hr
      exact h r hr
  | cons op ops ih =>
      intro db c h r hr
      have hstep : HotScoreService.toggle_like_seq (op :: ops) now (db, c)
          = HotScoreService.toggle_like_seq ops now
              ((HotScoreService.toggle_like op.1 op.2 now db c).2.1,
               (HotScoreService.toggle_like op.1 op.2 now db c).2.2) := rfl
      rw [hstep] at hr
      exact ih _ _ (toggle_like_step_nonneg op.1 op.2 now db c h) r hr

/-- C10: unliking an existing article whose like_count is 0 succeeds and
leaves its like_count at 0 (the max(0, n-1) floor), and like_count stays
non-negative under every sequence of toggle_like calls. -/
theorem toggle_like_floor_at_zero {α : Type} (article_id : Nat) (now : ℝ)
    (db : List ArticleRow) (c : Cache α)
    (hex : ∃ r ∈ db, r.id = article_id)
    (hzero : ∀ r ∈ db, r.id = article_id → r.art.like_count = 0) :
    (HotScoreService.toggle_like article_id false now db c).1 = true
  ∧ (∀ r ∈ (HotScoreService.toggle_like article_id false now db c).2.1,
        r.id = article_id → r.art.like_count = 0)
  ∧ (∀ (ops : List (Nat × Bool)), (∀ r ∈ db, 0 ≤ r.art.like_count) →
        ∀ r ∈ (HotScoreService.toggle_like_seq ops now (db, c)).1,
          0 ≤ r.art.like_count) := by
  obtain ⟨r0, hr0, hid0⟩ := hex
  have hfind : ∃ r1, db.find? (fun r => r.id == article_id) = some r1 := by
    have : (db.find? (fun r => r.id == article_id)).isSome := by
      rw [List.find?_isSome]
      exact ⟨r0, hr0, by simpa using hid0⟩
    exact Option.isSome_iff_exists.mp this
  obtain ⟨r1, hr1⟩ := hfind
  refine ⟨?_, ?_, fun ops h => toggle_like_seq_nonneg now ops db c h⟩
  · simp only [HotScoreService.toggle_like, hr1]
  · intro r hr hid
    simp only [HotScoreService.toggle_like, hr1] at hr
    obtain ⟨rr, hrr, rfl⟩ := List.mem_map.mp hr
    by_cases hc : (rr.id == article_id) = true
    · simp only [hc, if_true] at hid ⊢
      have hl0 : rr.art.like_count = 0 := hzero rr hrr (by simpa using hc)
      simp only [if_false, hl0]
      decide
    · simp only [hc, if_false] at hid ⊢
      exact absurd (by simpa using hid) (by simpa using hc)

/-- C10 witness: unliking the single zero-like article of a one-row store,
and a two-step toggle sequence, evaluated concretely. -/
theorem toggle_like_floor_at_zero_witness :
    (HotScoreService.toggle_like 1 false 0
        [⟨1, ⟨0, 0, 0, some 1, none, none, 0⟩, 0, none⟩]
        (([] : Cache String))).1 = true
  ∧ (∀ r ∈ (HotScoreService.toggle_like 1 false 0
        [⟨1, ⟨0, 0, 0, some 1, none, none, 0⟩, 0, none⟩]
        (([] : Cache String))).2.1,
        r.id = 1 → r.art.like_count = 0)
  ∧ (∀ (ops : List (Nat × Bool)),
      (∀ r ∈ ([⟨1, ⟨0, 0, 0, some 1, none, none, 0⟩, 0, none⟩] : List ArticleRow),
          0 ≤ r.art.like_count) →
      ∀ r ∈ (HotScoreService.toggle_like_seq ops 0
          (([⟨1, ⟨0, 0, 0, some 1, none, none, 0⟩, 0, none⟩] : List ArticleRow),
           ([] : Cache String))).1,
        0 ≤ r.art.like_count) :=
  toggle_like_floor_at_zero 1 0 [⟨1, ⟨0, 0, 0, some 1, none, none, 0⟩, 0, none⟩] []
    ⟨⟨1, ⟨0, 0, 0, some 1, none, none, 0⟩, 0, none⟩, List.mem_singleton.mpr rfl, rfl⟩
    (fun r hr _ => by rw [List.mem_singleton.mp hr])

namespace HotScoreService

/-- calculate_hot_score as a single product: interaction floor times decay
times freshness times quality times category factor, rounded. -/
theorem calculate_hot_score_eq (a : Article) (t : ℝ) :
    calculate_hot_score a t
      = roundTo2
          (max ((a.view_count : ℝ) * VIEW_WEIGHT + (a.like_count : ℝ) * LIKE_WEIGHT
              + (a.share_count : ℝ) * SHARE_WEIGHT) 10.0
           * ((0.5 : ℝ) ^ (((t - a.crawl_time) / 3600) / HALF_LIFE_HOURS)
              * (if (t - a.crawl_time) / 3600 < 24 then (1.2 : ℝ) else 1))
           * (level_weight a * sentiment_boost a)
           * categoryFactor a.category) := by
  simp only [calculate_hot_score]
  rcases hcat : a.category with _ | cat
  · simp only [categoryFactor]
    congr 1
    split_ifs <;> ring
  · simp only [categoryFactor]
    rcases hb : category_boosts cat with _ | b
    · simp only [Option.getD_none]
      congr 1
      split_ifs <;> ring
    · simp only [Option.getD_some]
      congr 1
      split_ifs <;> ring

/-- roundTo2 is monotone. -/
theorem roundTo2_mono {x y : ℝ} (h : x ≤ y) : roundTo2 x ≤ roundTo2 y := by
  unfold roundTo2
  have hf : ⌊x * 100 + 1 / 2⌋ ≤ ⌊y * 100 + 1 / 2⌋ := Int.floor_mono (by linarith)
  have hc : ((⌊x * 100 + 1 / 2⌋ : ℤ) : ℝ) ≤ ((⌊y * 100 + 1 / 2⌋ : ℤ) : ℝ) := by
    exact_mod_cast hf
  linarith

/-- The level weight is one of the five table values or the 0.8 default. -/
theorem level_weight_cases (a : Article) :
    level_weight a = 0.6 ∨ level_weight a = 0.8 ∨ level_weight a = 1.0
      ∨ level_weight a = 1.3 ∨ level_weight a = 1.6 := by
  unfold level_weight
  generalize levelOrOne a.level = k
  rcases k with n | n
  · rcases n with _ | _ | _ | _ | _ | _ | m
    · right; left; rfl
    · left; rfl
    · right; left; rfl
    · right; right; left; rfl
    · right; right; right; left; rfl
    · right; right; right; right; rfl
    · right; left; rfl
  · right; left; rfl

/-- The sentiment boost is 0.9, 1.0 or 1.2. -/
theorem sentiment_boost_cases (a : Article) :
    sentiment_boost a = 0.9 ∨ sentiment_boost a = 1.0 ∨ sentiment_boost a = 1.2 := by
  rcases hs : a.sentiment with _ | s <;> simp only [sentiment_boost, hs]
  · norm_num
  · split_ifs <;> norm_num

/-- The category factor is 1 or one of the three boost values. -/
theorem categoryFactor_cases (c? : Option String) :
    categoryFactor c? = 1 ∨ categoryFactor c? = 1.1 ∨ categoryFactor c? = 1.2
      ∨ categoryFactor c? = 1.15 := by
  rcases c? with _ | cat
  · left
    rfl
  · simp only [categoryFactor, category_boosts]
    split_ifs <;> simp

/-- Bounds extracted from the case lemmas. -/
theorem quality_bounds (a : Article) :
    ((0.6 : ℝ) ≤ level_weight a ∧ (0 : ℝ) < level_weight a)
  ∧ ((0.9 : ℝ) ≤ sentiment_boost a ∧ (0 : ℝ) < sentiment_boost a)
  ∧ ((1 : ℝ) ≤ categoryFactor a.category ∧ (0 : ℝ) < categoryFactor a.category) := by
  refine ⟨?_, ?_, ?_⟩
  · rcases level_weight_cases a with h | h | h | h | h <;> rw [h] <;> norm_num
  · rcases sentiment_boost_cases a with h | h | h <;> rw [h] <;> norm_num
  · rcases categoryFactor_cases a.category with h | h | h | h <;> rw [h] <;> norm_num

/-- The decay-times-freshness factor is antitone in the age in hours. -/
theorem decay_factor_antitone {h1 h2 : ℝ} (h : h1 ≤ h2) :
    (0.5 : ℝ) ^ (h2 / HALF_LIFE_HOURS) * (if h2 < 24 then (1.2 : ℝ) else 1)
      ≤ (0.5 : ℝ) ^ (h1 / HALF_LIFE_HOURS) * (if h1 < 24 then (1.2 : ℝ) else 1) := by
  have hexp : h1 / HALF_LIFE_HOURS ≤ h2 / HALF_LIFE_HOURS := by
    have : (0 : ℝ) < HALF_LIFE_HOURS := by norm_num [HALF_LIFE_HOURS]
    gcongr
  have hd : (0.5 : ℝ) ^ (h2 / HALF_LIFE_HOURS) ≤ (0.5 : ℝ) ^ (h1 / HALF_LIFE_HOURS) :=
    Real.rpow_le_rpow_of_exponent_ge (by norm_num) (by norm_num) hexp
  have hp1 : (0 : ℝ) < (0.5 : ℝ) ^ (h1 / HALF_LIFE_HOURS) :=
    Real.rpow_pos_of_pos (by norm_num) _
  split_ifs with hA hB hB
  · exact mul_le_mul_of_nonneg_right hd (by norm_num)
  · linarith
  · nlinarith [hd, hp1]
  · simpa using hd

/-- The decay-times-freshness factor is non-negative. -/
theorem decay_factor_nonneg (h : ℝ) :
    (0 : ℝ) ≤ (0.5 : ℝ) ^ (h / HALF_LIFE_HOURS) * (if h < 24 then (1.2 : ℝ) else 1) :=
  mul_nonneg (Real.rpow_nonneg (by norm_num) _) (by split_ifs <;> norm_num)

/-- C6: with counters fixed, the score is non-increasing in the current
time after ingestion (across the 24-hour freshness boundary and rounding);
with time fixed, raising any counters never lowers the score. -/
theorem calculate_hot_score_monotone :
    (∀ (a : Article) (n1 n2 : ℝ), a.crawl_time ≤ n1 → n1 ≤ n2 →
        calculate_hot_score a n2 ≤ calculate_hot_score a n1)
  ∧ (∀ (a : Article) (now : ℝ) (v l s : ℤ),
        a.view_count ≤ v → a.like_count ≤ l → a.share_count ≤ s →
        calculate_hot_score a now
          ≤ calculate_hot_score
              { a with view_count := v, like_count := l, share_count := s } now) := by
  constructor
  · intro a n1 n2 _ h12
    rw [calculate_hot_score_eq, calculate_hot_score_eq]
    apply roundTo2_mono
    have hI : (0 : ℝ) ≤ max ((a.view_count : ℝ) * VIEW_WEIGHT
        + (a.like_count : ℝ) * LIKE_WEIGHT + (a.share_count : ℝ) * SHARE_WEIGHT) 10.0 :=
      le_trans (by norm_num) (le_max_right _ _)
    have hQ : (0 : ℝ) ≤ level_weight a * sentiment_boost a :=
      mul_nonneg (quality_bounds a).1.2.le (quality_bounds a).2.1.2.le
    have hC : (0 : ℝ) ≤ categoryFactor a.category := (quality_bounds a).2.2.2.le
    have hD := decay_factor_antitone
      (show (n1 - a.crawl_time) / 3600 ≤ (n2 - a.crawl_time) / 3600 by
        have h0 : n1 - a.crawl_time ≤ n2 - a.crawl_time := by linarith
        linarith)
    exact mul_le_mul_of_nonneg_right
      (mul_le_mul_of_nonneg_right (mul_le_mul_of_nonneg_left hD hI) hQ) hC
  · intro a now v l s hv hl hs
    rw [calculate_hot_score_eq, calculate_hot_score_eq]
    have e1 : level_weight { a with view_count := v, like_count := l, share_count := s }
        = level_weight a := rfl
    have e2 : sentiment_boost { a with view_count := v, like_count := l, share_count := s }
        = sentiment_boost a := rfl
    rw [e1, e2]
    dsimp only
    apply roundTo2_mono
    have hw1 : (0 : ℝ) ≤ VIEW_WEIGHT := by norm_num [VIEW_WEIGHT]
    have hw2 : (0 : ℝ) ≤ LIKE_WEIGHT := by norm_num [LIKE_WEIGHT]
    have hw3 : (0 : ℝ) ≤ SHARE_WEIGHT := by norm_num [SHARE_WEIGHT]
    have hIle : max ((a.view_count : ℝ) * VIEW_WEIGHT + (a.like_count : ℝ) * LIKE_WEIGHT
          + (a.share_count : ℝ) * SHARE_WEIGHT) 10.0
        ≤ max ((v : ℝ) * VIEW_WEIGHT + (l : ℝ) * LIKE_WEIGHT
          + (s : ℝ) * SHARE_WEIGHT) 10.0 := by
      apply max_le_max _ le_rfl
      have c1 : (a.view_count : ℝ) ≤ (v : ℝ) := Int.cast_le.mpr hv
      have c2 : (a.like_count : ℝ) ≤ (l : ℝ) := Int.cast_le.mpr hl
      have c3 : (a.share_count : ℝ) ≤ (s : ℝ) := Int.cast_le.mpr hs
      have := add_le_add (add_le_add (mul_le_mul_of_nonneg_right c1 hw1)
        (mul_le_mul_of_nonneg_right c2 hw2)) (mul_le_mul_of_nonneg_right c3 hw3)
      linarith
    have hQ : (0 : ℝ) ≤ level_weight a * sentiment_boost a :=
      mul_nonneg (quality_bounds a).1.2.le (quality_bounds a).2.1.2.le
    have hC : (0 : ℝ) ≤ categoryFactor a.category := (quality_bounds a).2.2.2.le
    exact mul_le_mul_of_nonneg_right (mul_le_mul_of_nonneg_right
      (mul_le_mul_of_nonneg_right hIle (decay_factor_nonneg _)) hQ) hC

/-- C6 witness: both monotonicity parts evaluated at a concrete article and
concrete times or counter increments. -/
theorem calculate_hot_score_monotone_witness :
    calculate_hot_score ⟨0, 0, 0, some 1, none, none, 0⟩ 3600
      ≤ calculate_hot_score ⟨0, 0, 0, some 1, none, none, 0⟩ 0
  ∧ calculate_hot_score ⟨0, 0, 0, some 1, none, none, 0⟩ 0
      ≤ calculate_hot_score ⟨1, 2, 3, some 1, none, none, 0⟩ 0 :=
  ⟨calculate_hot_score_monotone.1 ⟨0, 0, 0, some 1, none, none, 0⟩ 0 3600
      (by norm_num) (by norm_num),
   calculate_hot_score_monotone.2 ⟨0, 0, 0, some 1, none, none, 0⟩ 0 1 2 3
      (by norm_num) (by norm_num) (by norm_num)⟩

/-- C7: the level-1 no-sentiment no-category scenario at age zero scores
exactly 10 × 1.2 × 0.6 = 7.2, and any article with all counters zero scored
at its own crawl_time gets a strictly positive score. -/
theorem brand_new_item_score :
    calculate_hot_score ⟨0, 0, 0, some 1, none, none, 0⟩ 0 = 7.2
  ∧ (∀ (a : Article) (now : ℝ), a.view_count = 0 → a.like_count = 0 →
        a.share_count = 0 → now = a.crawl_time →
        0 < calculate_hot_score a now) := by
  constructor
  · rw [calculate_hot_score_eq]
    have hlw : level_weight ⟨0, 0, 0, some 1, none, none, 0⟩ = 0.6 := rfl
    have hsb : sentiment_boost ⟨0, 0, 0, some 1, none, none, 0⟩ = 1.0 := rfl
    rw [hlw, hsb]
    dsimp only
    rw [show ((0 : ℝ) - 0) / 3600 = 0 by norm_num]
    rw [show (0 : ℝ) / HALF_LIFE_HOURS = 0 from zero_div _, Real.rpow_zero]
    rw [if_pos (by norm_num : (0 : ℝ) < 24)]
    have : max ((0 : ℤ) * VIEW_WEIGHT + (0 : ℤ) * LIKE_WEIGHT
        + (0 : ℤ) * SHARE_WEIGHT : ℝ) 10.0 = 10 := by
      norm_num
    rw [show categoryFactor (none : Option String) = 1 from rfl]
    norm_num [VIEW_WEIGHT, LIKE_WEIGHT, SHARE_WEIGHT, roundTo2]
  · intro a now hv hl hs hnow
    subst hnow
    rw [calculate_hot_score_eq]
    rw [hv, hl, hs, sub_self, zero_div, zero_div, Real.rpow_zero]
    rw [if_pos (by norm_num : (0 : ℝ) < 24)]
    have harg : (6.48 : ℝ) ≤ max ((0 : ℤ) * VIEW_WEIGHT + (0 : ℤ) * LIKE_WEIGHT
        + ((0 : ℤ) : ℝ) * SHARE_WEIGHT) 10.0 * (1 * 1.2)
        * (level_weight a * sentiment_boost a) * categoryFactor a.category := by
      have h1 := (quality_bounds a).1.1
      have h2 := (quality_bounds a).2.1.1
      have h3 := (quality_bounds a).2.2.1
      have hmax : max ((0 : ℤ) * VIEW_WEIGHT + (0 : ℤ) * LIKE_WEIGHT
          + ((0 : ℤ) : ℝ) * SHARE_WEIGHT) 10.0 = 10 := by
        norm_num
      rw [hmax]
      have hq : (0.54 : ℝ) ≤ level_weight a * sentiment_boost a := by
        nlinarith [h1, h2]
      nlinarith [hq, h3,
        mul_nonneg
          (by linarith : (0 : ℝ) ≤ level_weight a * sentiment_boost a - 0.54)
          (by linarith : (0 : ℝ) ≤ categoryFactor a.category - 1)]
    calc (0 : ℝ) < 6.48 := by norm_num
      _ = roundTo2 6.48 := by norm_num [roundTo2]
      _ ≤ _ := roundTo2_mono harg

/-- C7 witness: the positivity part evaluated at the concrete level-1
article at its crawl time. -/
theorem brand_new_item_score_witness :
    0 < calculate_hot_score ⟨0, 0, 0, some 1, none, none, 0⟩ 0 :=
  brand_new_item_score.2 ⟨0, 0, 0, some 1, none, none, 0⟩ 0 rfl rfl rfl rfl

end HotScoreService

end Crawler
